import Mathlib

/-!
Shallow embedding of `notarize.go` (package `notarize`), which drives four
external command-line tools (codesign, ditto, xcrun notarytool, xcrun stapler)
against an application bundle, using a scoped temporary directory holding a
generated entitlements plist.

External effects (temporary-directory creation, file writes, process runs,
directory removal) are modelled by an oracle `Env` that fixes the outcome of
each effect, and the orchestrator is a pure function from the inputs and the
oracle to a result together with the trace of effects it performed, in order.
Go's `defer os.RemoveAll(tmp)` runs on every exit from the function body,
including a panic, so the removal event is appended to every trace whose
temporary-directory creation succeeded.
-/

/-- Model of Go `path/filepath.Base` for Unix paths: empty path gives ".",
trailing slashes are stripped, the last slash-separated element is returned,
and an all-slash path gives "/". -/
def filepathBase (path : String) : String :=
  if path = "" then "." else
  let r := path.data.reverse.dropWhile (fun c => c = '/')
  let last := r.takeWhile (fun c => c ≠ '/')
  if last = [] then "/" else String.mk last.reverse

/-- Model of Go `path/filepath.Ext`: the suffix of the final slash-separated
element starting at its final dot, or "" if that element has no dot. -/
def filepathExt (path : String) : String :=
  let pre := path.data.reverse.takeWhile (fun c => c ≠ '/')
  if '.' ∈ pre then String.mk ((pre.takeWhile (fun c => c ≠ '.')).concat '.').reverse
  else ""

/-- One step of Go `path/filepath.Clean`'s element processing, carried out over
the reversed list of already-emitted elements: empty and "." elements are
dropped, ".." pops the previous element (or is kept, resp. dropped, at the
start of a relative, resp. rooted, path), and other elements are emitted. -/
def cleanRev (rooted : Bool) : List String → List String → List String
  | acc, [] => acc
  | acc, p :: ps =>
    if p = "" ∨ p = "." then cleanRev rooted acc ps
    else if p = ".." then
      match acc with
      | q :: qs => if q = ".." then cleanRev rooted (p :: q :: qs) ps else cleanRev rooted qs ps
      | [] => if rooted then cleanRev rooted [] ps else cleanRev rooted [p] ps
    else cleanRev rooted (p :: acc) ps

/-- Splitting a character list at every '/', as Go `strings.Split(s, "/")`
does (structurally recursive so that it computes by kernel reduction). -/
def splitSlash : List Char → List (List Char)
  | [] => [[]]
  | c :: t =>
    if c = '/' then [] :: splitSlash t
    else
      match splitSlash t with
      | h :: r => (c :: h) :: r
      | [] => [[c]]

/-- Joining path elements with '/', as Go `strings.Join(elems, "/")` does
(structurally recursive so that it computes by kernel reduction). -/
def joinSlash : List String → String
  | [] => ""
  | [p] => p
  | p :: q :: ps => p ++ "/" ++ joinSlash (q :: ps)

/-- Model of Go `path/filepath.Clean` for Unix paths. -/
def filepathClean (path : String) : String :=
  if path = "" then "." else
  let rooted := path.data.head? = some '/'
  let out := (cleanRev rooted [] ((splitSlash path.data).map String.mk)).reverse
  if out = [] then (if rooted then "/" else ".")
  else (if rooted then "/" else "") ++ joinSlash out

/-- Model of Go `path/filepath.Join` on two elements for Unix paths: empty
elements are skipped and the slash-joined result is cleaned. -/
def filepathJoin (a b : String) : String :=
  if a = "" then (if b = "" then "" else filepathClean b)
  else filepathClean (a ++ "/" ++ b)

/-- The embedded entitlements property list, verbatim from the source constant
`entitlementsPlist`. -/
def entitlementsPlist : String :=
  "<?xml version=\"1.0\" encoding=\"UTF-8\"?>\n<!DOCTYPE plist PUBLIC \"-//Apple//DTD PLIST 1.0//EN\" \"http://www.apple.com/DTDs/PropertyList-1.0.dtd\">\n<plist version=\"1.0\">\n  <dict>\n    <key>com.apple.security.cs.disable-library-validation</key>\n    <true/>\n    <key>com.apple.security.cs.allow-dyld-environment-variables</key>\n    <true/>\n  </dict>\n</plist>"

/-- Model of `NotarizeOptions`. `ProgressOutput` is the optional `io.Writer`
for progress output, modelled opaquely (`none` = nil writer, discarded). -/
structure NotarizeOptions where
  Email : String
  DeveloperName : String
  TeamID : String
  AppPassword : String
  ProgressOutput : Option Unit
deriving DecidableEq, Repr

/-- Outcome of running one external process (`exec.Cmd.Run`): zero exit,
non-zero exit carrying the Go error's message and the text the process wrote
to the captured standard-error buffer, or an unexpected runtime fault. -/
inductive ProcResult where
  | success
  | failure (errMsg : String) (stderrText : String)
  | panic
deriving DecidableEq, Repr

/-- The oracle fixing the outcome of each external effect of one invocation:
`os.MkdirTemp` (the fresh directory path, or an error message), `os.WriteFile`
for the entitlements file (`none` = success, `some e` = error message `e`),
and the four tool runs. -/
structure Env where
  mkdirTemp : Except String String
  writeEntitlements : Option String
  codesign : ProcResult
  ditto : ProcResult
  notarytool : ProcResult
  stapler : ProcResult
deriving Repr

/-- One observable effect performed by the orchestrator, in trace order. A
`runTool` event records the executable name, the full argument list, and the
destination of the process's standard output (`none` = discarded, `some ()` =
the caller's progress writer). -/
inductive Event where
  | mkdirTemp (path : String)
  | writeFile (path : String) (content : String)
  | runTool (exe : String) (args : List String) (stdoutDest : Option Unit)
  | removeDir (path : String)
deriving DecidableEq, Repr

/-- Result of one invocation of `Notarize`: nil error, non-nil error with the
given message, or a propagated runtime panic (e.g. a nil-pointer dereference
of `options`). -/
inductive RunResult where
  | ok
  | error (msg : String)
  | panicked
deriving DecidableEq, Repr

/-- The body of `Notarize` after `os.MkdirTemp` succeeded with directory
`tmp`: write the entitlements file, then run codesign, ditto,
`xcrun notarytool submit` and `xcrun stapler staple`, each gated on the
previous step's success, building the error messages with the source's
`fmt.Errorf` format strings. `options` is a pointer; it is first dereferenced
when building the codesign argument list, so a nil pointer panics there. -/
def NotarizeBody (appPath : String) (options : Option NotarizeOptions) (env : Env)
    (tmp : String) : RunResult × List Event :=
  let entitlements := filepathJoin tmp "entitlements.plist"
  let writeEv := Event.writeFile entitlements entitlementsPlist
  match env.writeEntitlements with
  | some e => (RunResult.error e, [writeEv])
  | none =>
    match options with
    | none => (RunResult.panicked, [writeEv])
    | some opts =>
      let signEv := Event.runTool "codesign"
        ["--display", "--verbose", "--verify", "--sign", opts.DeveloperName,
         "--timestamp", "--options", "runtime", "--force",
         "--entitlements", entitlements, "--deep", appPath] none
      match env.codesign with
      | ProcResult.panic => (RunResult.panicked, [writeEv, signEv])
      | ProcResult.failure em se =>
          (RunResult.error ("notarize: codesign failed: " ++ em ++ ": " ++ se),
           [writeEv, signEv])
      | ProcResult.success =>
        let base := filepathBase appPath
        let zipname :=
          String.mk (base.data.take (base.data.length - (filepathExt base).data.length))
            ++ ".zip"
        let zippath := filepathJoin tmp zipname
        let dittoEv := Event.runTool "ditto"
          ["-c", "-k", "--keepParent", appPath, zippath] none
        match env.ditto with
        | ProcResult.panic => (RunResult.panicked, [writeEv, signEv, dittoEv])
        | ProcResult.failure em se =>
            (RunResult.error ("notarize: ditto failed: " ++ em ++ ": " ++ se),
             [writeEv, signEv, dittoEv])
        | ProcResult.success =>
          let submitEv := Event.runTool "xcrun"
            ["notarytool", "submit", zippath, "--apple-id", opts.Email,
             "--password", opts.AppPassword, "--team-id", opts.TeamID, "--wait"]
            opts.ProgressOutput
          match env.notarytool with
          | ProcResult.panic =>
              (RunResult.panicked, [writeEv, signEv, dittoEv, submitEv])
          | ProcResult.failure em se =>
              (RunResult.error ("notarize: xcrun notarytool failed: " ++ em ++ ": " ++ se),
               [writeEv, signEv, dittoEv, submitEv])
          | ProcResult.success =>
            let stapleEv := Event.runTool "xcrun" ["stapler", "staple", appPath]
              opts.ProgressOutput
            match env.stapler with
            | ProcResult.panic =>
                (RunResult.panicked, [writeEv, signEv, dittoEv, submitEv, stapleEv])
            | ProcResult.failure em se =>
                (RunResult.error ("notarize: xcrun stapler failed: " ++ em ++ ": " ++ se),
                 [writeEv, signEv, dittoEv, submitEv, stapleEv])
            | ProcResult.success =>
                (RunResult.ok, [writeEv, signEv, dittoEv, submitEv, stapleEv])

/-- Model of `Notarize(appPath, options)`: create the temporary directory
(returning the bare error on failure), run the body, and — via the deferred
`os.RemoveAll(tmp)` — remove the directory on every exit from the body,
whether it returned nil, returned an error, or panicked. Returns the Go
result together with the trace of effects. -/
def Notarize (appPath : String) (options : Option NotarizeOptions) (env : Env) :
    RunResult × List Event :=
  match env.mkdirTemp with
  | Except.error e => (RunResult.error e, [])
  | Except.ok tmp =>
    let r := NotarizeBody appPath options env tmp
    (r.fst, Event.mkdirTemp tmp :: (r.snd ++ [Event.removeDir tmp]))

/-- The zip-archive file name the ditto step uses, as computed at source lines
82-83: the bundle path's base name with the bytes of its `filepath.Ext`
suffix cut off, plus ".zip". -/
def zipName (appPath : String) : String :=
  let base := filepathBase appPath
  String.mk (base.data.take (base.data.length - (filepathExt base).data.length)) ++ ".zip"

/-- Observation helper: which of the four orchestrated steps an event is an
invocation of, identified by executable name and leading subcommand. -/
def stepNameOf (e : Event) : Option String :=
  match e with
  | Event.runTool exe args _ =>
    if exe = "codesign" then some "codesign"
    else if exe = "ditto" then some "ditto"
    else if exe = "xcrun" then
      if args.head? = some "notarytool" then some "notarytool"
      else if args.head? = some "stapler" then some "stapler"
      else none
    else none
  | _ => none

/-- Observation helper: the sequence of orchestrated tool invocations in a
trace, as step names, in order. -/
def stepsRun (evs : List Event) : List String :=
  evs.filterMap stepNameOf

/-- Observation helper: the argument lists of the invocations of the named
step occurring in a trace, in order. -/
def callsOf (evs : List Event) (name : String) : List (List String) :=
  evs.filterMap fun e =>
    match e with
    | Event.runTool exe args so =>
        if stepNameOf (Event.runTool exe args so) = some name then some args else none
    | _ => none

/-- Observation helper: the file writes performed by the orchestrator itself
in a trace, as (path, content) pairs, in order. -/
def fileWrites (evs : List Event) : List (String × String) :=
  evs.filterMap fun e =>
    match e with
    | Event.writeFile p c => some (p, c)
    | _ => none

/-- Observation helper: the directory removals in a trace, in order. -/
def removals (evs : List Event) : List String :=
  evs.filterMap fun e =>
    match e with
    | Event.removeDir p => some p
    | _ => none

/-- Number of occurrences of a (nonempty) pattern in a character list, counting
one per start position at which the pattern occurs. -/
def countOccur (pat : List Char) : List Char → Nat
  | [] => 0
  | c :: t => (if pat.isPrefixOf (c :: t) then 1 else 0) + countOccur pat t

/-- From the spec's state machine (`Start → EntitlementsWritten → Signed →
Archived → Submitted → Stapled → Done`, failing out of any state): the
sequence of external steps the spec says one invocation runs, given the
oracle's outcomes — each step invoked exactly when every earlier phase
succeeded, in the fixed order sign, archive, submit, staple. -/
def spec_expectedSteps (options : Option NotarizeOptions) (env : Env) : List String :=
  match env.mkdirTemp with
  | Except.error _ => []
  | Except.ok _ =>
    match env.writeEntitlements with
    | some _ => []
    | none =>
      match options with
      | none => []
      | some _ =>
        "codesign" ::
          (if env.codesign ≠ ProcResult.success then [] else
            "ditto" ::
              (if env.ditto ≠ ProcResult.success then [] else
                "notarytool" ::
                  (if env.notarytool ≠ ProcResult.success then [] else ["stapler"])))

/-- C1: every invocation runs the external steps in the strict order
codesign, ditto, notarytool submit, stapler; each step is invoked exactly
when all earlier phases succeeded, so the first failing step aborts the run
(in particular a codesign failure means ditto, notarytool and stapler are
never invoked), and no step is ever invoked twice (no retry). -/
theorem notarize_steps_sequential_and_gated (appPath : String)
    (options : Option NotarizeOptions) (env : Env) :
    stepsRun (Notarize appPath options env).snd = spec_expectedSteps options env ∧
    spec_expectedSteps options env <+: ["codesign", "ditto", "notarytool", "stapler"] ∧
    (spec_expectedSteps options env).Nodup := by
  obtain ⟨mk, we, cs, dt, nt, st⟩ := env
  refine ⟨?_, ?_, ?_⟩
  · cases mk with
    | error e => simp [Notarize, spec_expectedSteps, stepsRun]
    | ok t =>
      cases we with
      | some e => simp [Notarize, NotarizeBody, spec_expectedSteps, stepsRun, stepNameOf]
      | none =>
        cases options with
        | none => simp [Notarize, NotarizeBody, spec_expectedSteps, stepsRun, stepNameOf]
        | some opts =>
          cases cs with
          | panic => simp [Notarize, NotarizeBody, spec_expectedSteps, stepsRun, stepNameOf]
          | failure em se =>
              simp [Notarize, NotarizeBody, spec_expectedSteps, stepsRun, stepNameOf]
          | success =>
            cases dt with
            | panic => simp [Notarize, NotarizeBody, spec_expectedSteps, stepsRun, stepNameOf]
            | failure em se =>
                simp [Notarize, NotarizeBody, spec_expectedSteps, stepsRun, stepNameOf]
            | success =>
              cases nt with
              | panic =>
                  simp [Notarize, NotarizeBody, spec_expectedSteps, stepsRun, stepNameOf]
              | failure em se =>
                  simp [Notarize, NotarizeBody, spec_expectedSteps, stepsRun, stepNameOf]
              | success =>
                cases st <;>
                  simp [Notarize, NotarizeBody, spec_expectedSteps, stepsRun, stepNameOf]
  · cases mk <;> cases we <;> cases options <;> cases cs <;> cases dt <;> cases nt <;>
      cases st <;> simp [spec_expectedSteps]
  · cases mk <;> cases we <;> cases options <;> cases cs <;> cases dt <;> cases nt <;>
      cases st <;> simp [spec_expectedSteps]

/-- C2: the invocation returns a nil error exactly when the setup phase
(temporary-directory creation and the entitlements write) succeeds and all
four external tools exit with status zero; in particular whenever all four
tools report success the operation returns success. -/
theorem notarize_ok_iff_setup_and_tools_ok (appPath : String) (opts : NotarizeOptions)
    (env : Env) :
    (Notarize appPath (some opts) env).fst = RunResult.ok ↔
      ((∃ tmp, env.mkdirTemp = Except.ok tmp) ∧ env.writeEntitlements = none ∧
        env.codesign = ProcResult.success ∧ env.ditto = ProcResult.success ∧
        env.notarytool = ProcResult.success ∧ env.stapler = ProcResult.success) := by
  obtain ⟨mk, we, cs, dt, nt, st⟩ := env
  cases mk with
  | error e => simp [Notarize]
  | ok t =>
    cases we with
    | some e => simp [Notarize, NotarizeBody]
    | none =>
      cases cs with
      | panic => simp [Notarize, NotarizeBody]
      | failure em se => simp [Notarize, NotarizeBody]
      | success =>
        cases dt with
        | panic => simp [Notarize, NotarizeBody]
        | failure em se => simp [Notarize, NotarizeBody]
        | success =>
          cases nt with
          | panic => simp [Notarize, NotarizeBody]
          | failure em se => simp [Notarize, NotarizeBody]
          | success => cases st <;> simp [Notarize, NotarizeBody]

/-- C3: once the temporary working directory is created, it is removed
exactly once on every exit path — success, failure of the entitlements
write or of any of the four steps, a panic of an intermediate step, and
the nil-options panic alike. -/
theorem notarize_workdir_removed_exactly_once (appPath : String)
    (options : Option NotarizeOptions) (env : Env) (tmp : String)
    (h : env.mkdirTemp = Except.ok tmp) :
    removals (Notarize appPath options env).snd = [tmp] := by
  obtain ⟨mk, we, cs, dt, nt, st⟩ := env
  cases mk with
  | error e => simp at h
  | ok t =>
    obtain rfl : t = tmp := by simpa using h
    cases we <;> cases options <;> cases cs <;> cases dt <;> cases nt <;> cases st <;>
      simp [Notarize, NotarizeBody, removals]

/-- Witness for C3 at a concrete input: an all-success run removes exactly
the created working directory. -/
theorem notarize_workdir_removed_exactly_once_witness :
    removals (Notarize "Foo.app" (some ⟨"e@x", "Dev", "TEAM", "pw", none⟩)
      ⟨Except.ok "/tmp/work", none, ProcResult.success, ProcResult.success,
       ProcResult.success, ProcResult.success⟩).snd = ["/tmp/work"] :=
  notarize_workdir_removed_exactly_once "Foo.app" _ _ "/tmp/work" rfl

/-- A character list containing '.' splits as its dot-free prefix, the first
'.', and a remainder. -/
theorem takeWhile_dot_decomp (l : List Char) (h : '.' ∈ l) :
    ∃ rest, l = l.takeWhile (fun c => c ≠ '.') ++ '.' :: rest := by
  induction l with
  | nil => cases h
  | cons c t ih =>
    by_cases hc : c = '.'
    · subst hc
      exact ⟨t, by simp [List.takeWhile_cons]⟩
    · have ht : '.' ∈ t := by
        rcases List.mem_cons.mp h with h1 | h1
        · exact absurd h1.symm hc
        · exact h1
      obtain ⟨rest, hr⟩ := ih ht
      refine ⟨rest, ?_⟩
      rw [List.takeWhile_cons]
      simp only [hc, decide_not]
      simpa using congrArg (c :: ·) hr

/-- `filepathExt s` is a suffix of `s`: `s` is some stem followed by its
extension, and cutting the extension's length off the end of `s` leaves
exactly that stem (the slicing at source line 83). -/
theorem filepathExt_stem (s : String) :
    ∃ stem : String, s = stem ++ filepathExt s ∧
      String.mk (s.data.take (s.data.length - (filepathExt s).data.length)) = stem := by
  by_cases h : '.' ∈ s.data.reverse.takeWhile (fun c => c ≠ '/')
  · set pre := s.data.reverse.takeWhile (fun c => c ≠ '/') with hpre
    have hext : filepathExt s =
        String.mk ((pre.takeWhile (fun c => c ≠ '.')).concat '.').reverse := by
      simp only [filepathExt, ← hpre, h, if_pos]
    obtain ⟨rest, hr⟩ := takeWhile_dot_decomp pre h
    have h1 : (pre.takeWhile (fun c => c ≠ '.')).concat '.' <+: pre := by
      rw [List.concat_eq_append]
      exact ⟨rest, by rw [List.append_assoc]; simpa using hr.symm⟩
    have h3 : (pre.takeWhile (fun c => c ≠ '.')).concat '.' <+: s.data.reverse :=
      h1.trans (List.takeWhile_prefix _)
    have h4 : ((pre.takeWhile (fun c => c ≠ '.')).concat '.').reverse <:+ s.data := by
      simpa using List.reverse_suffix.mpr h3
    obtain ⟨stemL, hst⟩ := h4
    refine ⟨String.mk stemL, ?_, ?_⟩
    · refine String.ext ?_
      rw [String.data_append, hext]
      exact hst.symm
    · have hlen : s.data.length - (filepathExt s).data.length = stemL.length := by
        rw [hext, ← hst]
        simp
      rw [hlen, ← hst, List.take_left]
  · have hext : filepathExt s = "" := by
      simp only [filepathExt]
      rw [if_neg h]
    refine ⟨s, ?_, ?_⟩
    · rw [hext]
      simp
    · refine String.ext ?_
      rw [hext]
      simp

/-- C4: whenever the archiving step is reached, the ditto invocation's target
is the join of the working directory with the archive name; that name is the
bundle path's base name with its final extension replaced by ".zip" (there is
a stem such that the base name is the stem followed by its extension and the
archive name is the stem followed by ".zip"); on the multi-dot name
"My.App.app" the archive name is "My.App.zip". -/
theorem notarize_zip_name_spec (appPath : String) (opts : NotarizeOptions) (env : Env)
    (tmp : String) (h1 : env.mkdirTemp = Except.ok tmp)
    (h2 : env.writeEntitlements = none) (h3 : env.codesign = ProcResult.success) :
    callsOf (Notarize appPath (some opts) env).snd "ditto" =
      [["-c", "-k", "--keepParent", appPath, filepathJoin tmp (zipName appPath)]] ∧
    (∃ stem, filepathBase appPath = stem ++ filepathExt (filepathBase appPath) ∧
      zipName appPath = stem ++ ".zip") ∧
    zipName "My.App.app" = "My.App.zip" := by
  refine ⟨?_, ?_, by decide⟩
  · obtain ⟨mk, we, cs, dt, nt, st⟩ := env
    obtain rfl : mk = Except.ok tmp := h1
    obtain rfl : we = none := h2
    obtain rfl : cs = ProcResult.success := h3
    cases dt <;> cases nt <;> cases st <;>
      simp [Notarize, NotarizeBody, callsOf, stepNameOf, zipName]
  · obtain ⟨stem, hs, ht⟩ := filepathExt_stem (filepathBase appPath)
    refine ⟨stem, hs, ?_⟩
    simp only [zipName]
    rw [ht]

/-- Witness for C4 at a concrete input: an all-success run on bundle
"My.App.app" passes ditto the archive "/tmp/work/My.App.zip". -/
theorem notarize_zip_name_spec_witness :
    callsOf (Notarize "My.App.app" (some ⟨"e@x", "Dev", "TEAM", "pw", none⟩)
      ⟨Except.ok "/tmp/work", none, ProcResult.success, ProcResult.success,
       ProcResult.success, ProcResult.success⟩).snd "ditto" =
      [["-c", "-k", "--keepParent", "My.App.app",
        filepathJoin "/tmp/work" (zipName "My.App.app")]] ∧
    (∃ stem, filepathBase "My.App.app" = stem ++ filepathExt (filepathBase "My.App.app") ∧
      zipName "My.App.app" = stem ++ ".zip") ∧
    zipName "My.App.app" = "My.App.zip" :=
  notarize_zip_name_spec "My.App.app" ⟨"e@x", "Dev", "TEAM", "pw", none⟩
    ⟨Except.ok "/tmp/work", none, ProcResult.success, ProcResult.success,
     ProcResult.success, ProcResult.success⟩ "/tmp/work" rfl rfl rfl

/-- C5: when codesign and ditto succeed and the notarytool submission exits
non-zero with captured standard-error text `se`, the returned error's message
is the notarytool failure message and it contains `se` verbatim (as a
suffix). -/
theorem notarize_submit_failure_contains_stderr (appPath : String)
    (opts : NotarizeOptions) (env : Env) (tmp em se : String)
    (h1 : env.mkdirTemp = Except.ok tmp) (h2 : env.writeEntitlements = none)
    (h3 : env.codesign = ProcResult.success) (h4 : env.ditto = ProcResult.success)
    (h5 : env.notarytool = ProcResult.failure em se) :
    (Notarize appPath (some opts) env).fst =
      RunResult.error ("notarize: xcrun notarytool failed: " ++ em ++ ": " ++ se) ∧
    ∃ p, "notarize: xcrun notarytool failed: " ++ em ++ ": " ++ se = p ++ se := by
  constructor
  · obtain ⟨mk, we, cs, dt, nt, st⟩ := env
    obtain rfl : mk = Except.ok tmp := h1
    obtain rfl : we = none := h2
    obtain rfl : cs = ProcResult.success := h3
    obtain rfl : dt = ProcResult.success := h4
    obtain rfl : nt = ProcResult.failure em se := h5
    simp [Notarize, NotarizeBody]
  · exact ⟨"notarize: xcrun notarytool failed: " ++ em ++ ": ", rfl⟩

/-- Witness for C5 at a concrete input: a run whose submission fails with
standard-error text "Invalid credentials" returns that text inside the
error message. -/
theorem notarize_submit_failure_contains_stderr_witness :
    (Notarize "Foo.app" (some ⟨"e@x", "Dev", "TEAM", "pw", none⟩)
      ⟨Except.ok "/tmp/work", none, ProcResult.success, ProcResult.success,
       ProcResult.failure "exit status 1" "Invalid credentials",
       ProcResult.success⟩).fst =
      RunResult.error
        ("notarize: xcrun notarytool failed: " ++ "exit status 1" ++ ": " ++
          "Invalid credentials") ∧
    ∃ p, "notarize: xcrun notarytool failed: " ++ "exit status 1" ++ ": " ++
        "Invalid credentials" = p ++ "Invalid credentials" :=
  notarize_submit_failure_contains_stderr "Foo.app" ⟨"e@x", "Dev", "TEAM", "pw", none⟩
    ⟨Except.ok "/tmp/work", none, ProcResult.success, ProcResult.success,
     ProcResult.failure "exit status 1" "Invalid credentials", ProcResult.success⟩
    "/tmp/work" "exit status 1" "Invalid credentials" rfl rfl rfl rfl rfl

/-- Counterexample for C6: a temporary-directory creation failure is returned
as the bare underlying error — its message is just the OS error text, with no
"notarize: " prefix, no step name and no "failed" marker. -/
theorem notarize_setup_failure_not_descriptive_cex :
    (Notarize "Foo.app" (some ⟨"e@x", "Dev", "TEAM", "pw", none⟩)
      ⟨Except.error "permission denied", none, ProcResult.success, ProcResult.success,
       ProcResult.success, ProcResult.success⟩).fst =
      RunResult.error "permission denied" ∧
    ("notarize: ".data.isPrefixOf "permission denied".data) = false ∧
    countOccur "failed".data "permission denied".data = 0 := by
  decide

/-- C6 (amended): every failure arising from one of the four external tool
steps carries the failing step's name (inside the fixed message prefix), the
underlying process error, and the captured standard-error text; setup
failures (temporary-directory creation, entitlements write) instead return
the bare underlying error. This theorem covers the tool-step part: past a
successful setup, any returned error message is one of the four step-named
messages with that step's process error and captured diagnostics. -/
theorem notarize_tool_failures_descriptive (appPath : String) (opts : NotarizeOptions)
    (env : Env) (tmp m : String)
    (h1 : env.mkdirTemp = Except.ok tmp) (h2 : env.writeEntitlements = none)
    (h3 : (Notarize appPath (some opts) env).fst = RunResult.error m) :
    ∃ pre em se,
      m = pre ++ em ++ ": " ++ se ∧
      ((pre = "notarize: codesign failed: " ∧ env.codesign = ProcResult.failure em se) ∨
       (pre = "notarize: ditto failed: " ∧ env.ditto = ProcResult.failure em se) ∨
       (pre = "notarize: xcrun notarytool failed: " ∧
         env.notarytool = ProcResult.failure em se) ∨
       (pre = "notarize: xcrun stapler failed: " ∧
         env.stapler = ProcResult.failure em se)) := by
  obtain ⟨mk, we, cs, dt, nt, st⟩ := env
  obtain rfl : mk = Except.ok tmp := h1
  obtain rfl : we = none := h2
  cases cs with
  | panic => simp [Notarize, NotarizeBody] at h3
  | failure em se =>
    refine ⟨"notarize: codesign failed: ", em, se, ?_, Or.inl ⟨rfl, rfl⟩⟩
    simp [Notarize, NotarizeBody] at h3
    exact h3.symm
  | success =>
    cases dt with
    | panic => simp [Notarize, NotarizeBody] at h3
    | failure em se =>
      refine ⟨"notarize: ditto failed: ", em, se, ?_, Or.inr (Or.inl ⟨rfl, rfl⟩)⟩
      simp [Notarize, NotarizeBody] at h3
      exact h3.symm
    | success =>
      cases nt with
      | panic => simp [Notarize, NotarizeBody] at h3
      | failure em se =>
        refine ⟨"notarize: xcrun notarytool failed: ", em, se, ?_,
          Or.inr (Or.inr (Or.inl ⟨rfl, rfl⟩))⟩
        simp [Notarize, NotarizeBody] at h3
        exact h3.symm
      | success =>
        cases st with
        | panic => simp [Notarize, NotarizeBody] at h3
        | failure em se =>
          refine ⟨"notarize: xcrun stapler failed: ", em, se, ?_,
            Or.inr (Or.inr (Or.inr ⟨rfl, rfl⟩))⟩
          simp [Notarize, NotarizeBody] at h3
          exact h3.symm
        | success => simp [Notarize, NotarizeBody] at h3

/-- Witness for the amended C6 at a concrete input: a codesign failure yields
the step-named descriptive message. -/
theorem notarize_tool_failures_descriptive_witness :
    ∃ pre em se,
      "notarize: codesign failed: exit status 1: bad signature" =
        pre ++ em ++ ": " ++ se ∧
      ((pre = "notarize: codesign failed: " ∧
          (⟨Except.ok "/tmp/work", none, ProcResult.failure "exit status 1" "bad signature",
            ProcResult.success, ProcResult.success, ProcResult.success⟩ : Env).codesign =
            ProcResult.failure em se) ∨
       (pre = "notarize: ditto failed: " ∧
          (⟨Except.ok "/tmp/work", none, ProcResult.failure "exit status 1" "bad signature",
            ProcResult.success, ProcResult.success, ProcResult.success⟩ : Env).ditto =
            ProcResult.failure em se) ∨
       (pre = "notarize: xcrun notarytool failed: " ∧
          (⟨Except.ok "/tmp/work", none, ProcResult.failure "exit status 1" "bad signature",
            ProcResult.success, ProcResult.success, ProcResult.success⟩ : Env).notarytool =
            ProcResult.failure em se) ∨
       (pre = "notarize: xcrun stapler failed: " ∧
          (⟨Except.ok "/tmp/work", none, ProcResult.failure "exit status 1" "bad signature",
            ProcResult.success, ProcResult.success, ProcResult.success⟩ : Env).stapler =
            ProcResult.failure em se)) :=
  notarize_tool_failures_descriptive "Foo.app" ⟨"e@x", "Dev", "TEAM", "pw", none⟩
    ⟨Except.ok "/tmp/work", none, ProcResult.failure "exit status 1" "bad signature",
     ProcResult.success, ProcResult.success, ProcResult.success⟩
    "/tmp/work" "notarize: codesign failed: exit status 1: bad signature" rfl rfl (by decide)

set_option maxRecDepth 4096 in
/-- C7: once the working directory exists, the trace starts with its creation
followed immediately by the single entitlements write — so the descriptor is
written exactly once, before any external tool runs, at the fixed path inside
the working directory, with the invariant embedded content; and that content
grants exactly two entitlements: it has exactly two plist keys, namely
disabled library validation and permission for dynamic-linker environment
variables, each set to true. -/
theorem notarize_entitlements_written_once_fixed (appPath : String)
    (options : Option NotarizeOptions) (env : Env) (tmp : String)
    (h : env.mkdirTemp = Except.ok tmp) :
    (∃ rest, (Notarize appPath options env).snd =
        Event.mkdirTemp tmp ::
          Event.writeFile (filepathJoin tmp "entitlements.plist") entitlementsPlist ::
            rest ∧
      fileWrites rest = []) ∧
    fileWrites (Notarize appPath options env).snd =
      [(filepathJoin tmp "entitlements.plist", entitlementsPlist)] ∧
    countOccur "<key>".data entitlementsPlist.data = 2 ∧
    0 < countOccur
        ("<key>com.apple.security.cs.disable-library-validation</key>\n    <true/>").data
        entitlementsPlist.data ∧
    0 < countOccur
        ("<key>com.apple.security.cs.allow-dyld-environment-variables</key>\n    <true/>").data
        entitlementsPlist.data := by
  refine ⟨?_, ?_, by decide, by decide, by decide⟩
  · obtain ⟨mk, we, cs, dt, nt, st⟩ := env
    obtain rfl : mk = Except.ok tmp := h
    cases we <;> cases options <;> cases cs <;> cases dt <;> cases nt <;> cases st <;>
      exact ⟨_, rfl, rfl⟩
  · obtain ⟨mk, we, cs, dt, nt, st⟩ := env
    obtain rfl : mk = Except.ok tmp := h
    cases we <;> cases options <;> cases cs <;> cases dt <;> cases nt <;> cases st <;> rfl

/-- Witness for C7 at a concrete input: a signing-failure run still has the
trace start with the directory creation and the one fixed-content
entitlements write. -/
theorem notarize_entitlements_written_once_fixed_witness :
    (∃ rest, (Notarize "Foo.app" (some ⟨"e@x", "Dev", "TEAM", "pw", none⟩)
        ⟨Except.ok "/tmp/work", none, ProcResult.failure "exit status 1" "bad",
         ProcResult.success, ProcResult.success, ProcResult.success⟩).snd =
        Event.mkdirTemp "/tmp/work" ::
          Event.writeFile (filepathJoin "/tmp/work" "entitlements.plist")
            entitlementsPlist :: rest ∧
      fileWrites rest = []) ∧
    fileWrites (Notarize "Foo.app" (some ⟨"e@x", "Dev", "TEAM", "pw", none⟩)
        ⟨Except.ok "/tmp/work", none, ProcResult.failure "exit status 1" "bad",
         ProcResult.success, ProcResult.success, ProcResult.success⟩).snd =
      [(filepathJoin "/tmp/work" "entitlements.plist", entitlementsPlist)] ∧
    countOccur "<key>".data entitlementsPlist.data = 2 ∧
    0 < countOccur
        ("<key>com.apple.security.cs.disable-library-validation</key>\n    <true/>").data
        entitlementsPlist.data ∧
    0 < countOccur
        ("<key>com.apple.security.cs.allow-dyld-environment-variables</key>\n    <true/>").data
        entitlementsPlist.data :=
  notarize_entitlements_written_once_fixed "Foo.app"
    (some ⟨"e@x", "Dev", "TEAM", "pw", none⟩)
    ⟨Except.ok "/tmp/work", none, ProcResult.failure "exit status 1" "bad",
     ProcResult.success, ProcResult.success, ProcResult.success⟩ "/tmp/work" rfl

/-- C8: whenever the signing step runs, codesign is the first tool invoked
and its argument list is exactly: display, verbose, verify, sign with the
request's developer name, timestamp, hardened-runtime options, force, the
entitlements file from the working directory, deep, and the bundle path. -/
theorem notarize_codesign_args_exact (appPath : String) (opts : NotarizeOptions)
    (env : Env) (tmp : String) (h1 : env.mkdirTemp = Except.ok tmp)
    (h2 : env.writeEntitlements = none) :
    callsOf (Notarize appPath (some opts) env).snd "codesign" =
      [["--display", "--verbose", "--verify", "--sign", opts.DeveloperName,
        "--timestamp", "--options", "runtime", "--force",
        "--entitlements", filepathJoin tmp "entitlements.plist", "--deep", appPath]] ∧
    (stepsRun (Notarize appPath (some opts) env).snd).head? = some "codesign" := by
  obtain ⟨mk, we, cs, dt, nt, st⟩ := env
  obtain rfl : mk = Except.ok tmp := h1
  obtain rfl : we = none := h2
  cases cs <;> cases dt <;> cases nt <;> cases st <;> exact ⟨rfl, rfl⟩

/-- Witness for C8 at a concrete input: an all-success run invokes codesign
first, with exactly the listed options. -/
theorem notarize_codesign_args_exact_witness :
    callsOf (Notarize "Foo.app" (some ⟨"e@x", "Dev", "TEAM", "pw", none⟩)
      ⟨Except.ok "/tmp/work", none, ProcResult.success, ProcResult.success,
       ProcResult.success, ProcResult.success⟩).snd "codesign" =
      [["--display", "--verbose", "--verify", "--sign", "Dev",
        "--timestamp", "--options", "runtime", "--force",
        "--entitlements", filepathJoin "/tmp/work" "entitlements.plist", "--deep",
        "Foo.app"]] ∧
    (stepsRun (Notarize "Foo.app" (some ⟨"e@x", "Dev", "TEAM", "pw", none⟩)
      ⟨Except.ok "/tmp/work", none, ProcResult.success, ProcResult.success,
       ProcResult.success, ProcResult.success⟩).snd).head? = some "codesign" :=
  notarize_codesign_args_exact "Foo.app" ⟨"e@x", "Dev", "TEAM", "pw", none⟩
    ⟨Except.ok "/tmp/work", none, ProcResult.success, ProcResult.success,
     ProcResult.success, ProcResult.success⟩ "/tmp/work" rfl rfl

/-- Counterexample for C9: the bundle path is not passed to all four steps —
on bundle "Foo.app" the submission invocation's full argument list is the
archive path plus credentials, and "Foo.app" appears nowhere in it. -/
theorem notarize_submit_not_passed_bundle_cex :
    callsOf (Notarize "Foo.app" (some ⟨"e@x", "Dev", "TEAM", "pw", none⟩)
      ⟨Except.ok "/tmp/work", none, ProcResult.success, ProcResult.success,
       ProcResult.success, ProcResult.success⟩).snd "notarytool" =
      [["notarytool", "submit", "/tmp/work/Foo.zip", "--apple-id", "e@x",
        "--password", "pw", "--team-id", "TEAM", "--wait"]] ∧
    "Foo.app" ∉ ["notarytool", "submit", "/tmp/work/Foo.zip", "--apple-id", "e@x",
        "--password", "pw", "--team-id", "TEAM", "--wait"] := by
  decide

/-- C9 (amended): the orchestrator's own file writes are exactly the one
entitlements file inside the working directory; the signing, archiving and
stapling invocations each receive the bundle path unchanged, while the
submission invocation receives only the archive path derived from it (plus
the credentials); the bundle is touched only by the external tools. -/
theorem notarize_writes_confined (appPath : String) (opts : NotarizeOptions) (env : Env)
    (tmp : String) (h : env.mkdirTemp = Except.ok tmp) :
    fileWrites (Notarize appPath (some opts) env).snd =
      [(filepathJoin tmp "entitlements.plist", entitlementsPlist)] ∧
    (∀ args ∈ callsOf (Notarize appPath (some opts) env).snd "codesign",
      args = ["--display", "--verbose", "--verify", "--sign", opts.DeveloperName,
        "--timestamp", "--options", "runtime", "--force",
        "--entitlements", filepathJoin tmp "entitlements.plist", "--deep", appPath]) ∧
    (∀ args ∈ callsOf (Notarize appPath (some opts) env).snd "ditto",
      args = ["-c", "-k", "--keepParent", appPath, filepathJoin tmp (zipName appPath)]) ∧
    (∀ args ∈ callsOf (Notarize appPath (some opts) env).snd "stapler",
      args = ["stapler", "staple", appPath]) ∧
    (∀ args ∈ callsOf (Notarize appPath (some opts) env).snd "notarytool",
      args = ["notarytool", "submit", filepathJoin tmp (zipName appPath), "--apple-id",
        opts.Email, "--password", opts.AppPassword, "--team-id", opts.TeamID,
        "--wait"]) := by
  obtain ⟨mk, we, cs, dt, nt, st⟩ := env
  obtain rfl : mk = Except.ok tmp := h
  cases we <;> cases cs <;> cases dt <;> cases nt <;> cases st <;>
    refine ⟨rfl, ?_, ?_, ?_, ?_⟩ <;>
    · intro args hargs
      first
      | exact absurd hargs (List.not_mem_nil _)
      | exact List.eq_of_mem_singleton hargs

/-- Witness for the amended C9 at a concrete input: an all-success run
writes only the entitlements file and passes the bundle path to the sign,
archive and staple steps. -/
theorem notarize_writes_confined_witness :
    fileWrites (Notarize "Foo.app" (some ⟨"e@x", "Dev", "TEAM", "pw", none⟩)
      ⟨Except.ok "/tmp/work", none, ProcResult.success, ProcResult.success,
       ProcResult.success, ProcResult.success⟩).snd =
      [(filepathJoin "/tmp/work" "entitlements.plist", entitlementsPlist)] ∧
    (∀ args ∈ callsOf (Notarize "Foo.app" (some ⟨"e@x", "Dev", "TEAM", "pw", none⟩)
      ⟨Except.ok "/tmp/work", none, ProcResult.success, ProcResult.success,
       ProcResult.success, ProcResult.success⟩).snd "codesign",
      args = ["--display", "--verbose", "--verify", "--sign", "Dev",
        "--timestamp", "--options", "runtime", "--force",
        "--entitlements", filepathJoin "/tmp/work" "entitlements.plist", "--deep",
        "Foo.app"]) ∧
    (∀ args ∈ callsOf (Notarize "Foo.app" (some ⟨"e@x", "Dev", "TEAM", "pw", none⟩)
      ⟨Except.ok "/tmp/work", none, ProcResult.success, ProcResult.success,
       ProcResult.success, ProcResult.success⟩).snd "ditto",
      args = ["-c", "-k", "--keepParent", "Foo.app",
        filepathJoin "/tmp/work" (zipName "Foo.app")]) ∧
    (∀ args ∈ callsOf (Notarize "Foo.app" (some ⟨"e@x", "Dev", "TEAM", "pw", none⟩)
      ⟨Except.ok "/tmp/work", none, ProcResult.success, ProcResult.success,
       ProcResult.success, ProcResult.success⟩).snd "stapler",
      args = ["stapler", "staple", "Foo.app"]) ∧
    (∀ args ∈ callsOf (Notarize "Foo.app" (some ⟨"e@x", "Dev", "TEAM", "pw", none⟩)
      ⟨Except.ok "/tmp/work", none, ProcResult.success, ProcResult.success,
       ProcResult.success, ProcResult.success⟩).snd "notarytool",
      args = ["notarytool", "submit", filepathJoin "/tmp/work" (zipName "Foo.app"),
        "--apple-id", "e@x", "--password", "pw", "--team-id", "TEAM", "--wait"]) :=
  notarize_writes_confined "Foo.app" ⟨"e@x", "Dev", "TEAM", "pw", none⟩
    ⟨Except.ok "/tmp/work", none, ProcResult.success, ProcResult.success,
     ProcResult.success, ProcResult.success⟩ "/tmp/work" rfl

/-- C10: with a nil options pointer the run that gets past setup panics at
the signing step's unguarded dereference — it neither returns a failure nor
invokes any external tool; and no option field is validated: with every
credential string empty, the tools are invoked with the empty strings in
their argument lists and an all-success run returns success. -/
theorem notarize_nil_options_panics (appPath : String) (env env2 : Env)
    (tmp tmp2 : String)
    (h1 : env.mkdirTemp = Except.ok tmp) (h2 : env.writeEntitlements = none)
    (h3 : env2.mkdirTemp = Except.ok tmp2) (h4 : env2.writeEntitlements = none)
    (h5 : env2.codesign = ProcResult.success) (h6 : env2.ditto = ProcResult.success)
    (h7 : env2.notarytool = ProcResult.success)
    (h8 : env2.stapler = ProcResult.success) :
    (Notarize appPath none env).fst = RunResult.panicked ∧
    stepsRun (Notarize appPath none env).snd = [] ∧
    (Notarize appPath (some ⟨"", "", "", "", none⟩) env2).fst = RunResult.ok ∧
    callsOf (Notarize appPath (some ⟨"", "", "", "", none⟩) env2).snd "notarytool" =
      [["notarytool", "submit", filepathJoin tmp2 (zipName appPath), "--apple-id", "",
        "--password", "", "--team-id", "", "--wait"]] := by
  obtain ⟨mk, we, cs, dt, nt, st⟩ := env
  obtain ⟨mk2, we2, cs2, dt2, nt2, st2⟩ := env2
  obtain rfl : mk = Except.ok tmp := h1
  obtain rfl : we = none := h2
  obtain rfl : mk2 = Except.ok tmp2 := h3
  obtain rfl : we2 = none := h4
  obtain rfl : cs2 = ProcResult.success := h5
  obtain rfl : dt2 = ProcResult.success := h6
  obtain rfl : nt2 = ProcResult.success := h7
  obtain rfl : st2 = ProcResult.success := h8
  exact ⟨rfl, rfl, rfl, rfl⟩

/-- Witness for C10 at a concrete input: a nil-options run past setup panics
with no tool invoked, and an all-empty-credentials run passes the empty
strings to notarytool and succeeds. -/
theorem notarize_nil_options_panics_witness :
    (Notarize "Foo.app" none
      ⟨Except.ok "/tmp/work", none, ProcResult.success, ProcResult.success,
       ProcResult.success, ProcResult.success⟩).fst = RunResult.panicked ∧
    stepsRun (Notarize "Foo.app" none
      ⟨Except.ok "/tmp/work", none, ProcResult.success, ProcResult.success,
       ProcResult.success, ProcResult.success⟩).snd = [] ∧
    (Notarize "Foo.app" (some ⟨"", "", "", "", none⟩)
      ⟨Except.ok "/tmp/work2", none, ProcResult.success, ProcResult.success,
       ProcResult.success, ProcResult.success⟩).fst = RunResult.ok ∧
    callsOf (Notarize "Foo.app" (some ⟨"", "", "", "", none⟩)
      ⟨Except.ok "/tmp/work2", none, ProcResult.success, ProcResult.success,
       ProcResult.success, ProcResult.success⟩).snd "notarytool" =
      [["notarytool", "submit", filepathJoin "/tmp/work2" (zipName "Foo.app"),
        "--apple-id", "", "--password", "", "--team-id", "", "--wait"]] :=
  notarize_nil_options_panics "Foo.app"
    ⟨Except.ok "/tmp/work", none, ProcResult.success, ProcResult.success,
     ProcResult.success, ProcResult.success⟩
    ⟨Except.ok "/tmp/work2", none, ProcResult.success, ProcResult.success,
     ProcResult.success, ProcResult.success⟩
    "/tmp/work" "/tmp/work2" rfl rfl rfl rfl rfl rfl rfl rfl
